import Mathlib

set_option maxRecDepth 8192

/-!
# Verification of the MPEdge retrieval-and-answer pipeline

Shallow embedding of `streamlit_app.py`: the chapter registry, the
auto-detector, the PDF text fetcher, the passage filter, the semantic
ranker, the prompt builder and the LLM gateway with fallback.
-/

namespace MPEdge

/-- Characters treated as whitespace by Python's `str.strip()`. -/
def isPyWs (c : Char) : Bool :=
  c = ' ' || c = '\t' || c = '\n' || c = '\r' || c = '\x0b' || c = '\x0c'

/-- Python `str.strip()`: drop leading and trailing whitespace. -/
def pyStrip (s : String) : String :=
  String.mk (((s.toList.dropWhile isPyWs).reverse.dropWhile isPyWs).reverse)

/-- Python `str.join` on a list of strings. -/
def pyJoin (sep : String) : List String → String
  | [] => ""
  | [x] => x
  | x :: y :: xs => x ++ sep ++ pyJoin sep (y :: xs)

/-- Python substring test `needle in hay` (on the character sequences). -/
def strContains (hay needle : String) : Bool :=
  hay.toList.tails.any (fun t => needle.toList.isPrefixOf t)

/-- Python `str.lower()` (ASCII case mapping suffices for this program). -/
def pyLower (s : String) : String :=
  String.mk (s.toList.map Char.toLower)

/-- Python `text.split("\n\n")`: split on each non-overlapping occurrence
of two consecutive newlines, scanning left to right. -/
def splitOnNN : List Char → List (List Char)
  | [] => [[]]
  | '\n' :: '\n' :: rest => [] :: splitOnNN rest
  | c :: rest =>
    match splitOnNN rest with
    | [] => [[c]]
    | g :: gs => (c :: g) :: gs

/-- The static chapter registry `chapter_to_url` (source lines 57-98), in
Python dict insertion order; no duplicate keys occur in the source. -/
def chapter_to_url : List (String × String) := [
  ("Chapter 0 – Table of Contents", "https://www.uspto.gov/web/offices/pac/mpep/mpep-0000-table-of-contents.pdf"),
  ("Chapter 20 – Introduction", "https://www.uspto.gov/web/offices/pac/mpep/mpep-0020-introduction.pdf"),
  ("Chapter 100 – Secrecy, Access, National Security, and Foreign Filing", "https://www.uspto.gov/web/offices/pac/mpep/mpep-0100.pdf"),
  ("Chapter 200 – Types and Status of Application; Benefit and Priority Claims", "https://www.uspto.gov/web/offices/pac/mpep/mpep-0200.pdf"),
  ("Chapter 300 – Ownership and Assignment", "https://www.uspto.gov/web/offices/pac/mpep/mpep-0300.pdf"),
  ("Chapter 400 – Representative of Applicant or Owner", "https://www.uspto.gov/web/offices/pac/mpep/mpep-0400.pdf"),
  ("Chapter 500 – Receipt and Handling of Mail and Papers", "https://www.uspto.gov/web/offices/pac/mpep/mpep-0500.pdf"),
  ("Chapter 600 – Parts, Form, and Content of Application", "https://www.uspto.gov/web/offices/pac/mpep/mpep-0600.pdf"),
  ("Chapter 700 – Examination of Applications", "https://www.uspto.gov/web/offices/pac/mpep/mpep-0700.pdf"),
  ("Chapter 800 – Restriction in Applications Filed Under 35 U.S.C. 111; Double Patenting", "https://www.uspto.gov/web/offices/pac/mpep/mpep-0800.pdf"),
  ("Chapter 900 – Prior Art, Search, Classification, and Routing", "https://www.uspto.gov/web/offices/pac/mpep/mpep-0900.pdf"),
  ("Chapter 1000 – Matters Decided by Various U.S. Patent and Trademark Office Officials", "https://www.uspto.gov/web/offices/pac/mpep/mpep-1000.pdf"),
  ("Chapter 1100 – Statutory Invention Registration (SIR); Pre-Grant Publication (PGPub) and Preissuance Submissions", "https://www.uspto.gov/web/offices/pac/mpep/mpep-1100.pdf"),
  ("Chapter 1200 – Appeal", "https://www.uspto.gov/web/offices/pac/mpep/mpep-1200.pdf"),
  ("Chapter 1300 – Allowance and Issue", "https://www.uspto.gov/web/offices/pac/mpep/mpep-1300.pdf"),
  ("Chapter 1400 – Correction of Patents", "https://www.uspto.gov/web/offices/pac/mpep/mpep-1400.pdf"),
  ("Chapter 1500 – Design Patents", "https://www.uspto.gov/web/offices/pac/mpep/mpep-1500.pdf"),
  ("Chapter 1600 – Plant Patents", "https://www.uspto.gov/web/offices/pac/mpep/mpep-1600.pdf"),
  ("Chapter 1700 – Miscellaneous", "https://www.uspto.gov/web/offices/pac/mpep/mpep-1700.pdf"),
  ("Chapter 1800 – Patent Cooperation Treaty", "https://www.uspto.gov/web/offices/pac/mpep/mpep-1800.pdf"),
  ("Chapter 1900 – Protest", "https://www.uspto.gov/web/offices/pac/mpep/mpep-1900.pdf"),
  ("Chapter 2000 – Duty of Disclosure", "https://www.uspto.gov/web/offices/pac/mpep/mpep-2000.pdf"),
  ("Chapter 2100 – Patentability", "https://www.uspto.gov/web/offices/pac/mpep/mpep-2100.pdf"),
  ("Chapter 2200 – Citation of Prior Art and Ex Parte Reexamination of Patents", "https://www.uspto.gov/web/offices/pac/mpep/mpep-2200.pdf"),
  ("Chapter 2300 – Interference and Derivation Proceedings", "https://www.uspto.gov/web/offices/pac/mpep/mpep-2300.pdf"),
  ("Chapter 2400 – Biotechnology", "https://www.uspto.gov/web/offices/pac/mpep/mpep-2400.pdf"),
  ("Chapter 2500 – Maintenance Fees", "https://www.uspto.gov/web/offices/pac/mpep/mpep-2500.pdf"),
  ("Chapter 2600 – Optional Inter Partes Reexamination", "https://www.uspto.gov/web/offices/pac/mpep/mpep-2600.pdf"),
  ("Chapter 2700 – Patent Terms, Adjustments, and Extensions", "https://www.uspto.gov/web/offices/pac/mpep/mpep-2700.pdf"),
  ("Chapter 2800 – Supplemental Examination", "https://www.uspto.gov/web/offices/pac/mpep/mpep-2800.pdf"),
  ("Chapter 2900 – International Design Applications", "https://www.uspto.gov/web/offices/pac/mpep/mpep-2900.pdf"),
  ("Chapter 9005 – Appendix I – Reserved", "https://www.uspto.gov/web/offices/pac/mpep/mpep-9005-appx-i.pdf"),
  ("Chapter 9010 – Appendix II – List of Decisions Cited", "https://www.uspto.gov/web/offices/pac/mpep/mpep-9010-appx-ii.pdf"),
  ("Chapter 9015 – Appendix L – Patent Laws", "https://www.uspto.gov/web/offices/pac/mpep/mpep-9015-appx-l.pdf"),
  ("Chapter 9020 – Appendix R – Patent Rules", "https://www.uspto.gov/web/offices/pac/mpep/mpep-9020-appx-r.pdf"),
  ("Chapter 9025 – Appendix T – Patent Cooperation Treaty", "https://www.uspto.gov/web/offices/pac/mpep/mpep-9025-appx-t.pdf"),
  ("Chapter 9030 – Appendix AI – Administrative Instructions Under the PCT", "https://www.uspto.gov/web/offices/pac/mpep/mpep-9030-appx-ai.pdf"),
  ("Chapter 9035 – Appendix P – Paris Convention", "https://www.uspto.gov/web/offices/pac/mpep/mpep-9035-appx-p.pdf"),
  ("Chapter 9090 – Subject Matter Index", "https://www.uspto.gov/web/offices/pac/mpep/mpep-9090-subject-matter-index.pdf"),
  ("Chapter 9095 – Form Paragraphs", "https://www.uspto.gov/web/offices/pac/mpep/mpep-9095-Form-Paragraph-Chapter.pdf")]

/-- `chapter_names = list(chapter_to_url.keys())` (source line 100). -/
def chapter_names : List String := chapter_to_url.map Prod.fst

/-- The static keyword table of `auto_detect_chapter` (source lines 106-226),
in Python dict insertion order; no duplicate keys occur in the source. -/
def keyword_to_chapter : List (String × String) := [
  ("101", "Chapter 2100 – Patentability"),
  ("section 101", "Chapter 2100 – Patentability"),
  ("section 102", "Chapter 2100 – Patentability"),
  ("section 103", "Chapter 2100 – Patentability"),
  ("35 usc 102", "Chapter 2100 – Patentability"),
  ("35 usc 103", "Chapter 2100 – Patentability"),
  ("obviousness", "Chapter 2100 – Patentability"),
  ("non-obvious", "Chapter 2100 – Patentability"),
  ("novelty", "Chapter 2100 – Patentability"),
  ("enablement", "Chapter 2100 – Patentability"),
  ("written description", "Chapter 2100 – Patentability"),
  ("best mode", "Chapter 2100 – Patentability"),
  ("utility", "Chapter 2100 – Patentability"),
  ("abstract idea", "Chapter 2100 – Patentability"),
  ("statutory subject matter", "Chapter 2100 – Patentability"),
  ("algorithm", "Chapter 2100 – Patentability"),
  ("103 rejection", "Chapter 2100 – Patentability"),
  ("102 rejection", "Chapter 2100 – Patentability"),
  ("office action", "Chapter 700 – Examination of Applications"),
  ("final rejection", "Chapter 700 – Examination of Applications"),
  ("non-final rejection", "Chapter 700 – Examination of Applications"),
  ("amendment", "Chapter 700 – Examination of Applications"),
  ("examination", "Chapter 700 – Examination of Applications"),
  ("reply brief", "Chapter 700 – Examination of Applications"),
  ("interview", "Chapter 700 – Examination of Applications"),
  ("claims", "Chapter 600 – Parts, Form, and Content of Application"),
  ("abstract", "Chapter 600 – Parts, Form, and Content of Application"),
  ("drawings", "Chapter 600 – Parts, Form, and Content of Application"),
  ("specification", "Chapter 600 – Parts, Form, and Content of Application"),
  ("restriction requirement", "Chapter 800 – Restriction in Applications Filed Under 35 U.S.C. 111; Double Patenting"),
  ("double patenting", "Chapter 800 – Restriction in Applications Filed Under 35 U.S.C. 111; Double Patenting"),
  ("generic claim", "Chapter 800 – Restriction in Applications Filed Under 35 U.S.C. 111; Double Patenting"),
  ("unity of invention", "Chapter 800 – Restriction in Applications Filed Under 35 U.S.C. 111; Double Patenting"),
  ("continuation", "Chapter 200 – Types and Status of Application; Benefit and Priority Claims"),
  ("continuation-in-part", "Chapter 200 – Types and Status of Application; Benefit and Priority Claims"),
  ("divisional", "Chapter 200 – Types and Status of Application; Benefit and Priority Claims"),
  ("provisional application", "Chapter 200 – Types and Status of Application; Benefit and Priority Claims"),
  ("priority claim", "Chapter 200 – Types and Status of Application; Benefit and Priority Claims"),
  ("appeal", "Chapter 1200 – Appeal"),
  ("ptab", "Chapter 1200 – Appeal"),
  ("board of appeals", "Chapter 1200 – Appeal"),
  ("rehearing", "Chapter 1200 – Appeal"),
  ("pre-appeal", "Chapter 1200 – Appeal"),
  ("ids", "Chapter 2000 – Duty of Disclosure"),
  ("information disclosure statement", "Chapter 2000 – Duty of Disclosure"),
  ("duty of disclosure", "Chapter 2000 – Duty of Disclosure"),
  ("rule 56", "Chapter 2000 – Duty of Disclosure"),
  ("prior art", "Chapter 2200 – Citation of Prior Art and Ex Parte Reexamination of Patents"),
  ("non-patent literature", "Chapter 2200 – Citation of Prior Art and Ex Parte Reexamination of Patents"),
  ("reexamination", "Chapter 2200 – Citation of Prior Art and Ex Parte Reexamination of Patents"),
  ("ex parte", "Chapter 2200 – Citation of Prior Art and Ex Parte Reexamination of Patents"),
  ("pct", "Chapter 1800 – Patent Cooperation Treaty"),
  ("pct application", "Chapter 1800 – Patent Cooperation Treaty"),
  ("foreign filing", "Chapter 1800 – Patent Cooperation Treaty"),
  ("foreign filing license", "Chapter 1800 – Patent Cooperation Treaty"),
  ("wipo", "Chapter 1800 – Patent Cooperation Treaty"),
  ("national phase", "Chapter 1800 – Patent Cooperation Treaty"),
  ("international phase", "Chapter 1800 – Patent Cooperation Treaty"),
  ("design patent", "Chapter 1500 – Design Patents"),
  ("ornamental", "Chapter 1500 – Design Patents"),
  ("plant patent", "Chapter 1600 – Plant Patents"),
  ("reissue", "Chapter 1400 – Correction of Patents"),
  ("assignment", "Chapter 300 – Ownership and Assignment"),
  ("ownership", "Chapter 300 – Ownership and Assignment"),
  ("change of ownership", "Chapter 300 – Ownership and Assignment"),
  ("power of attorney", "Chapter 400 – Representative of Applicant or Owner"),
  ("attorney", "Chapter 400 – Representative of Applicant or Owner"),
  ("attorney of record", "Chapter 400 – Representative of Applicant or Owner"),
  ("secrecy order", "Chapter 100 – Secrecy, Access, National Security, and Foreign Filing"),
  ("classified", "Chapter 100 – Secrecy, Access, National Security, and Foreign Filing"),
  ("access to application", "Chapter 100 – Secrecy, Access, National Security, and Foreign Filing"),
  ("deposit", "Chapter 2400 – Biotechnology"),
  ("biological material", "Chapter 2400 – Biotechnology"),
  ("publication", "Chapter 1100 – Statutory Invention Registration (SIR); Pre-Grant Publication (PGPub)"),
  ("pre-grant", "Chapter 1100 – Statutory Invention Registration (SIR); Pre-Grant Publication (PGPub)"),
  ("sir", "Chapter 1100 – Statutory Invention Registration (SIR); Pre-Grant Publication (PGPub)"),
  ("protest", "Chapter 1900 – Protest"),
  ("petition", "Chapter 1000 – Matters Decided by Various U.S. Patent and Trademark Office Officials"),
  ("maintenance fee", "Chapter 2500 – Maintenance Fees"),
  ("fee payment", "Chapter 2500 – Maintenance Fees"),
  ("late fee", "Chapter 2500 – Maintenance Fees"),
  ("subject matter index", "Chapter 9090 – Subject Matter Index")]

/-- The `for keyword, chapter in keyword_to_chapter.items()` loop of
`auto_detect_chapter` (source lines 229-232): first keyword that occurs as a
substring of the lowered question wins; `None` if none matches. -/
def detectLoop (question_lower : String) : List (String × String) → Option String
  | [] => none
  | (kw, ch) :: rest =>
    if strContains question_lower kw then some ch else detectLoop question_lower rest

/-- `auto_detect_chapter` (source lines 105-232). -/
def auto_detect_chapter (question : String) : Option String :=
  detectLoop (pyLower question) keyword_to_chapter

/-- Every name bound at the top level of the module `streamlit_app.py`
(imports, function definitions and top-level assignments).  Python resolves a
global name at call time against this namespace; a name absent from it raises
`NameError`.  Neither `util` nor `auto_detect_chapters` is ever bound. -/
def module_top_level_names : List String :=
  ["st", "requests", "fitz", "BytesIO", "os", "re", "json", "base64", "datetime",
   "fuzz", "SentenceTransformer", "torch",
   "load_embedder", "model", "render_logo_and_header", "chapter_to_url",
   "chapter_names", "auto_detect_chapter", "get_text_from_pdf_url",
   "get_top_matches", "query", "available_models", "model_name", "suggested",
   "suggested_chapters", "selected_chapters", "query_llm", "chapter_texts",
   "top_matches", "context", "prompt", "result", "raw_output", "answer_start",
   "llm_response", "rating", "i", "entry", "generate_download", "answer", "now",
   "export_txt", "export_md", "cache_embeddings", "get_top_matches_optimized"]

/-- The bytes returned by an HTTP GET, as seen by `fitz.open`: either a valid
PDF whose pages extract to the given strings, or invalid bytes on which
parsing raises with the given message. -/
inductive PdfDoc
  | valid (pages : List String)
  | invalid (msg : String)

/-- Outcome of `requests.get(url)`: a network-level exception with a message,
or a response with a status code and a body. -/
inductive HttpGet
  | exc (msg : String)
  | resp (status : Nat) (doc : PdfDoc)

/-- The message of the `HTTPError` that `response.raise_for_status()` raises
for a 4xx/5xx status. -/
def http_error_msg (status : Nat) (url : String) : String :=
  toString status ++ " Error for url: " ++ url

/-- `get_text_from_pdf_url` (source lines 238-246): GET the url,
`raise_for_status`, parse the body as a PDF and join the page texts with a
newline; every exception is caught and turned into the sentinel string
`"[Error loading PDF] {e}"` which is returned like ordinary text. -/
def get_text_from_pdf_url (net : String → HttpGet) (url : String) : String :=
  match net url with
  | .exc m => "[Error loading PDF] " ++ m
  | .resp status doc =>
    if 400 ≤ status ∧ status < 600 then
      "[Error loading PDF] " ++ http_error_msg status url
    else
      match doc with
      | .invalid m => "[Error loading PDF] " ++ m
      | .valid pages => pyJoin "\n" pages

/-- The paragraph filter shared by `get_top_matches` (line 251) and
`get_top_matches_optimized` (line 505):
`[p.strip() for p in full_text.split("\n\n") if len(p.strip()) > 100]`. -/
def segment_paragraphs (text : String) : List String :=
  ((splitOnNN text.toList).map (fun p => pyStrip (String.mk p))).filter
    (fun p => 100 < p.length)

/-- One hit returned by the semantic search: an index into the paragraph list
and a similarity score (scores are opaque values produced by the external
embedding model; rationals stand in for them). -/
structure Hit where
  corpusId : Nat
  score : ℚ
deriving DecidableEq

/-- A `(chapter, paragraph, score)` triple as accumulated in `results`. -/
structure RankedMatch where
  chapter : String
  passage : String
  score : ℚ
deriving DecidableEq

/-- The external `sentence_transformers` semantic search, abstracted: given
the query, the paragraph list and `top_k`, it returns a list of hits. -/
structure SearchOracle where
  search : String → List String → Nat → List Hit

/-- Python runtime errors relevant to this module. -/
inductive PyErr
  | nameError (n : String)
  | keyError (k : String)
deriving DecidableEq

instance {ε α : Type} [DecidableEq ε] [DecidableEq α] :
    DecidableEq (Except ε α) := fun a b =>
  match a, b with
  | .error x, .error y =>
    if h : x = y then .isTrue (by rw [h]) else .isFalse (by simp [h])
  | .error _, .ok _ => .isFalse (by simp)
  | .ok _, .error _ => .isFalse (by simp)
  | .ok x, .ok y =>
    if h : x = y then .isTrue (by rw [h]) else .isFalse (by simp [h])

/-- Stable insertion of a later element into a descending-sorted prefix: an
element moves ahead only of strictly lower scores, so equal scores keep the
original order. -/
def insertDesc (x : RankedMatch) : List RankedMatch → List RankedMatch
  | [] => [x]
  | y :: ys => if y.score < x.score then x :: y :: ys else y :: insertDesc x ys

/-- Python's stable `sorted(results, key=lambda x: -x[2])` (source line 261),
modelled as a stable insertion sort (the unique stable descending sort). -/
def sortByScoreDesc (rs : List RankedMatch) : List RankedMatch :=
  rs.foldl (fun acc x => insertDesc x acc) []

/-- `for hit in hits:` body (source lines 257-260). -/
def processHits (ch : String) (paras : List String) (hits : List Hit) :
    List RankedMatch :=
  hits.map (fun h => ⟨ch, paras.getD h.corpusId "", h.score⟩)

/-- The `for chapter, full_text in chapter_texts.items()` loop of
`get_top_matches` (source lines 250-260).  A chapter with no surviving
paragraph is skipped (`continue`).  Otherwise the loop body evaluates
`util.semantic_search(...)`; the global name `util` is resolved against
`module_top_level_names` and, when absent, evaluation raises `NameError`. -/
def rankLoop (o : SearchOracle) (q : String) (k : Nat) :
    List (String × String) → Except PyErr (List RankedMatch)
  | [] => .ok []
  | (ch, txt) :: rest =>
    let paras := segment_paragraphs txt
    if paras.isEmpty then rankLoop o q k rest
    else if module_top_level_names.contains "util" then
      match rankLoop o q k rest with
      | .error e => .error e
      | .ok tail => .ok (processHits ch paras (o.search q paras k) ++ tail)
    else .error (.nameError "util")

/-- `get_top_matches` (source lines 248-261). -/
def get_top_matches (o : SearchOracle) (q : String)
    (chapter_texts : List (String × String)) (k : Nat) :
    Except PyErr (List RankedMatch) :=
  (rankLoop o q k chapter_texts).map sortByScoreDesc

/-- `context = "\n---\n".join(f"{chap}\n{para}" for chap, para, _ in
top_matches)` (source line 396). -/
def build_context (ms : List RankedMatch) : String :=
  pyJoin "\n---\n" (ms.map (fun m => m.chapter ++ "\n" ++ m.passage))

/-- The fixed instructional template of the prompt (source lines 399-409,
after the final `.strip()`). -/
def build_prompt (query : String) (ms : List RankedMatch) : String :=
  "Using the following text from the MPEP chapter(s), answer the user's question concisely and clearly. Do not repeat the question or the full context.\n\nUser question:\n"
    ++ query ++ "\n\nMPEP context:\n" ++ build_context ms ++ "\n\nAnswer:"

/-- One entry of `available_models` (source lines 273-294). -/
structure ModelCfg where
  id : String
  source : String
deriving DecidableEq

/-- The static model table `available_models` (source lines 273-294), in
Python dict insertion order. -/
def available_models : List (String × ModelCfg) :=
  [("Mistral 7B (Hugging Face)",
      ⟨"mistralai/Mistral-7B-Instruct-v0.3", "huggingface"⟩),
   ("Phi-3 Medium (OpenRouter)",
      ⟨"microsoft/phi-3-medium-128k-instruct:free", "openrouter"⟩),
   ("OpenChat 7B (OpenRouter)",
      ⟨"openchat/openchat-7b:free", "openrouter"⟩),
   ("DeepSeek Chat (OpenRouter)",
      ⟨"deepseek/deepseek-llm-7b-chat:free", "openrouter"⟩),
   ("OLMo 2 (OpenRouter)",
      ⟨"allenai/OLMo-2-0425-1B-Instruct:free", "openrouter"⟩)]

/-- `fallback_key` (source line 323). -/
def fallback_key (primary_model_name : String) : String :=
  if primary_model_name ≠ "Mistral 7B (Hugging Face)" then
    "Mistral 7B (Hugging Face)"
  else "Phi-3 Medium (OpenRouter)"

/-- Outcome of one provider HTTP POST: a network/parse-level exception, or a
response with a status, a raw body text, and the provider-specific parsed
payload (`None` when the expected field is absent). -/
inductive ProviderOutcome
  | exc (msg : String)
  | resp (status : Nat) (text : String) (parsed : Option String)

/-- The environment of `query_llm`: the two API keys and, per provider, the
outcome of POSTing a given model id and prompt. -/
structure GatewayEnv where
  hfKey : Option String
  orKey : Option String
  hfPost : String → String → ProviderOutcome
  orPost : String → String → ProviderOutcome

/-- An error dict `{"error": msg}` with optional `"raw"`. -/
structure CallErr where
  msg : String
  raw : Option String
deriving DecidableEq

/-- Result dict of `call_model`: has an `"output"` key or an `"error"` key. -/
inductive CallRes
  | output (text : String) (modelId : String)
  | error (e : CallErr)
deriving DecidableEq

/-- `call_model` (source lines 326-370): per-provider auth, request and
response parsing, normalized to `{"output": ...}` or `{"error": ...}`.  A
missing key fails fast without a network call; a non-200 status, a missing
expected field and a network exception each become an error dict.  The final
branch models the `None` a source outside the two providers would yield. -/
def call_model (env : GatewayEnv) (prompt : String) (m : ModelCfg) : CallRes :=
  if m.source = "huggingface" then
    match env.hfKey with
    | none => .error ⟨"Missing Hugging Face API key", none⟩
    | some _ =>
      match env.hfPost m.id prompt with
      | .exc e => .error ⟨"Unhandled error calling " ++ m.id ++ ": " ++ e, none⟩
      | .resp status text parsed =>
        if status ≠ 200 then
          .error ⟨"Hugging Face error: " ++ toString status, some text⟩
        else
          match parsed with
          | some t => .output t m.id
          | none => .error ⟨"Unexpected HF output format", some text⟩
  else if m.source = "openrouter" then
    match env.orKey with
    | none => .error ⟨"Missing OpenRouter API key", none⟩
    | some _ =>
      match env.orPost m.id prompt with
      | .exc e => .error ⟨"Unhandled error calling " ++ m.id ++ ": " ++ e, none⟩
      | .resp status text parsed =>
        if status = 402 then
          .error ⟨"OpenRouter: Insufficient credits", some text⟩
        else if status = 429 then
          .error ⟨"OpenRouter: Rate limit hit", some text⟩
        else if status ≠ 200 then
          .error ⟨"OpenRouter error: " ++ toString status, some text⟩
        else
          match parsed with
          | some t => .output t m.id
          | none =>
            .error ⟨"Unhandled error calling " ++ m.id ++ ": KeyError", none⟩
  else .error ⟨"None", none⟩

/-- Result of `query_llm`: a success dict, the unknown-model error, the
both-failed error `{"error": "Both models failed", "details": ...}` carrying
the fallback attempt's error, or an uncaught crash (unreachable with the
actual model table). -/
inductive QueryRes
  | output (text : String) (modelId : String)
  | unknownModel (msg : String)
  | bothFailed (details : CallErr)
  | crash (msg : String)
deriving DecidableEq

/-- `query_llm` (source lines 318-380), instrumented with the ordered list of
model names actually passed to `call_model`.  The primary is tried first; only
if its result has no `"output"` key is the fallback tried, once; a failing
fallback yields the both-failed error. -/
def query_llm (env : GatewayEnv) (prompt : String) (primary_model_name : String) :
    QueryRes × List String :=
  match available_models.lookup primary_model_name with
  | none => (.unknownModel ("Unknown model selected: " ++ primary_model_name), [])
  | some primary =>
    match call_model env prompt primary with
    | .output t mid => (.output t mid, [primary_model_name])
    | .error _ =>
      match available_models.lookup (fallback_key primary_model_name) with
      | none => (.crash "TypeError: NoneType", [primary_model_name])
      | some fallback =>
        match call_model env prompt fallback with
        | .output t mid =>
          (.output t mid, [primary_model_name, fallback_key primary_model_name])
        | .error e2 =>
          (.bothFailed e2, [primary_model_name, fallback_key primary_model_name])

/-- Outcome of the search handler block (source lines 385-453): a Python
runtime error, the no-match stop (`st.error` + `st.stop()`, source lines
391-393), or an LLM answer with the matches displayed as sources. -/
inductive SearchOutcome
  | crashed (e : PyErr)
  | noMatch
  | answered (r : QueryRes) (ms : List RankedMatch)
deriving DecidableEq

/-- `chapter_texts = {c: get_text_from_pdf_url(chapter_to_url[c]) for c in
selected_chapters}` (source line 388); a label outside the registry raises
`KeyError`. -/
def resolve_texts (net : String → HttpGet) :
    List String → Except PyErr (List (String × String))
  | [] => .ok []
  | c :: rest =>
    match chapter_to_url.lookup c with
    | none => .error (.keyError c)
    | some u =>
      match resolve_texts net rest with
      | .error e => .error e
      | .ok l => .ok ((c, get_text_from_pdf_url net u) :: l)

/-- Everything external the pipeline talks to. -/
structure PipelineEnv where
  net : String → HttpGet
  gw : GatewayEnv
  oracle : SearchOracle

/-- The search handler block (source lines 385-453): resolve the selected
chapters' texts, rank with `top_k=1`, stop with the no-match message on an
empty ranking, otherwise build the prompt and call `query_llm`. -/
def run_search (penv : PipelineEnv) (query model_name : String)
    (selected_chapters : List String) : SearchOutcome :=
  match resolve_texts penv.net selected_chapters with
  | .error e => .crashed e
  | .ok chapter_texts =>
    match get_top_matches penv.oracle query chapter_texts 1 with
    | .error e => .crashed e
    | .ok [] => .noMatch
    | .ok ms =>
      .answered (query_llm penv.gw (build_prompt query ms) model_name).1 ms

/-- Whether the handler reached the LLM gateway. -/
def llm_called : SearchOutcome → Bool
  | .answered _ _ => true
  | _ => false

/-- `suggested = auto_detect_chapters(query)` (source line 304): the global
name `auto_detect_chapters` is resolved against the module namespace at call
time; if absent, `NameError` is raised.  When the name were bound it would
produce the chapter suggestion. -/
def script_suggestion_step (q : String) : Except PyErr (Option String) :=
  if module_top_level_names.contains "auto_detect_chapters" then
    .ok (auto_detect_chapter q)
  else .error (.nameError "auto_detect_chapters")

/-- The top-level script order: the suggestion step (line 304) runs before
the search handler (line 385); an exception in it aborts the run. -/
def script_main (penv : PipelineEnv) (q model_name : String)
    (selected : List String) : Except PyErr SearchOutcome :=
  match script_suggestion_step q with
  | .error e => .error e
  | .ok _ => .ok (run_search penv q model_name selected)

/-! ## Helper lemmas -/

/-- Length of a Python join: the summed part lengths plus one separator
between consecutive parts. -/
theorem pyJoin_length (sep : String) (ss : List String) :
    (pyJoin sep ss).length
      = (ss.map String.length).sum + sep.length * (ss.length - 1) := by
  induction ss with
  | nil => simp [pyJoin]
  | cons x xs ih =>
    cases xs with
    | nil => simp [pyJoin]
    | cons y ys =>
      have h : pyJoin sep (x :: y :: ys) = x ++ sep ++ pyJoin sep (y :: ys) := rfl
      rw [h, String.length_append, String.length_append, ih]
      simp [Nat.mul_succ]
      ring

/-- The module namespace never binds the name `util`. -/
theorem util_not_bound : "util" ∉ module_top_level_names := by
  decide

/-- As soon as one chapter contributes a surviving paragraph, the loop of
`get_top_matches` evaluates `util.semantic_search` and raises `NameError`. -/
theorem rankLoop_nameError (o : SearchOracle) (q : String) (k : Nat)
    (cts : List (String × String))
    (h : cts.any (fun c => !(segment_paragraphs c.2).isEmpty) = true) :
    rankLoop o q k cts = .error (.nameError "util") := by
  induction cts with
  | nil => simp at h
  | cons hd tl ih =>
    obtain ⟨ch, txt⟩ := hd
    by_cases hpe : (segment_paragraphs txt).isEmpty
    · have htl : tl.any (fun c => !(segment_paragraphs c.2).isEmpty) = true := by
        simpa [hpe] using h
      simpa [rankLoop, hpe] using ih htl
    · simp [rankLoop, hpe, util_not_bound]

/-- A chapter with no surviving paragraph is skipped by the ranking loop. -/
theorem rankLoop_skip (o : SearchOracle) (q : String) (k : Nat)
    (ch txt : String) (hempty : segment_paragraphs txt = [])
    (pre post : List (String × String)) :
    rankLoop o q k (pre ++ (ch, txt) :: post) = rankLoop o q k (pre ++ post) := by
  induction pre with
  | nil => simp [rankLoop, hempty]
  | cons hd tl ih =>
    obtain ⟨c, t⟩ := hd
    by_cases hpe : (segment_paragraphs t).isEmpty
    · simpa [rankLoop, hpe] using ih
    · simp [rankLoop, hpe, util_not_bound]

/-- The configuration the fallback key resolves to in `available_models`. -/
def fallback_cfg (primary_model_name : String) : ModelCfg :=
  if primary_model_name ≠ "Mistral 7B (Hugging Face)" then
    ⟨"mistralai/Mistral-7B-Instruct-v0.3", "huggingface"⟩
  else ⟨"microsoft/phi-3-medium-128k-instruct:free", "openrouter"⟩

/-- The fallback key always resolves in the model table. -/
theorem fallback_lookup (n : String) :
    available_models.lookup (fallback_key n) = some (fallback_cfg n) := by
  unfold fallback_key fallback_cfg
  by_cases h : n = "Mistral 7B (Hugging Face)" <;> simp [h] <;> decide

/-- The fallback key never equals the primary key. -/
theorem fallback_key_ne (n : String) : fallback_key n ≠ n := by
  unfold fallback_key
  by_cases h : n = "Mistral 7B (Hugging Face)"
  · subst h; simp
  · simp [h]
    exact fun hc => h hc.symm

/-- The detector loop returns `none` exactly when no keyword of the table
occurs in the lowered question. -/
theorem detectLoop_none_iff (ql : String) (tbl : List (String × String)) :
    detectLoop ql tbl = none ↔ ∀ kc ∈ tbl, strContains ql kc.1 = false := by
  induction tbl with
  | nil => simp [detectLoop]
  | cons hd tl ih =>
    obtain ⟨kw, ch⟩ := hd
    by_cases hkw : strContains ql kw
    · constructor
      · intro hnone
        exact absurd hnone (by simp [detectLoop, hkw])
      · intro hall
        exact absurd (hall (kw, ch) (by simp)) (by simp [hkw])
    · have hstep : detectLoop ql ((kw, ch) :: tl) = detectLoop ql tl := by
        simp [detectLoop, hkw]
      rw [hstep]
      constructor
      · intro hnone kc hkc
        rcases List.mem_cons.mp hkc with h1 | h2
        · rw [h1]; simpa using hkw
        · exact (ih.mp hnone) kc h2
      · intro hall
        exact ih.mpr (fun kc hkc => hall kc (List.mem_cons_of_mem _ hkc))

/-- When the detector loop answers, the answer is the chapter of the first
matching keyword: the table splits as `pre ++ (kw, ch) :: post` with `kw`
matching and nothing in `pre` matching. -/
theorem detectLoop_some (ql : String) (tbl : List (String × String))
    (ch : String) (h : detectLoop ql tbl = some ch) :
    ∃ pre kw post, tbl = pre ++ (kw, ch) :: post
      ∧ strContains ql kw = true
      ∧ ∀ kc ∈ pre, strContains ql kc.1 = false := by
  induction tbl with
  | nil => simp [detectLoop] at h
  | cons hd tl ih =>
    obtain ⟨kw, c⟩ := hd
    by_cases hkw : strContains ql kw
    · refine ⟨[], kw, tl, ?_, hkw, by simp⟩
      have hc : c = ch := by simpa [detectLoop, hkw] using h
      rw [hc]
      simp
    · have htl : detectLoop ql tl = some ch := by
        simpa [detectLoop, hkw] using h
      obtain ⟨pre, kw', post, heq, hmatch, hpre⟩ := ih htl
      refine ⟨(kw, c) :: pre, kw', post, by rw [heq]; simp, hmatch, ?_⟩
      intro kc hkc
      rcases List.mem_cons.mp hkc with h1 | h2
      · rw [h1]; simpa using hkw
      · exact hpre kc h2

/-- Where `get_text_from_pdf_url` would take its exception branch: the
message of the fetch or parse failure at this url, if any. -/
def fetch_failure_msg (net : String → HttpGet) (url : String) : Option String :=
  match net url with
  | .exc m => some m
  | .resp status doc =>
    if 400 ≤ status ∧ status < 600 then some (http_error_msg status url)
    else
      match doc with
      | .invalid m => some m
      | .valid _ => none

/-! ## Claims -/

/-- A 15001-character passage, longer than the ceiling the spec names. -/
def long_passage : String := String.mk (List.replicate 15001 'a')

/-- C1 counterexample: with a single 15001-character match the concatenated
context is 15003 characters long, above the 10-15k character ceiling the
claim says is enforced — no truncation of any kind happens. -/
theorem c1_counterexample :
    15000 < (build_context [⟨"C", long_passage, 0⟩]).length := by
  have h1 : build_context [⟨"C", long_passage, 0⟩] = "C" ++ "\n" ++ long_passage := rfl
  have h2 : long_passage.length = 15001 := by
    show (List.replicate 15001 'a').length = 15001
    rw [List.length_replicate]
  have h3 : ("C" : String).length = 1 := rfl
  have h4 : ("\n" : String).length = 1 := rfl
  rw [h1, String.length_append, String.length_append, h2, h3, h4]
  norm_num

/-- C1 (amended): the prompt builder performs no truncation at all — the
context is the full concatenation of every match's `"{chapter}\n{passage}"`
joined by `"\n---\n"`, so its length is exactly the sum of all part lengths
plus the separators, with no fixed ceiling; no match is dropped and no kept
passage is severed. -/
theorem c1_amended_no_truncation (ms : List RankedMatch) :
    (build_context ms).length
      = (ms.map (fun m => m.chapter.length + 1 + m.passage.length)).sum
        + 5 * (ms.length - 1) := by
  unfold build_context
  rw [pyJoin_length, List.map_map, List.length_map]
  have hsep : ("\n---\n" : String).length = 5 := rfl
  have hfun : (String.length ∘ fun m : RankedMatch => m.chapter ++ "\n" ++ m.passage)
      = fun m : RankedMatch => m.chapter.length + 1 + m.passage.length := by
    funext m
    show (m.chapter ++ "\n" ++ m.passage).length
      = m.chapter.length + 1 + m.passage.length
    rw [String.length_append, String.length_append]
    rfl
  rw [hsep, hfun]

/-- C2: for every environment, prompt and primary selection from the model
table, if the primary `call_model` result has an `"output"` key it is
returned and the fallback is never invoked; if the primary fails (missing
key, non-200 status, parse failure or exception all yield an error dict),
the fixed fallback model — always different from the primary — is invoked
exactly once (the call trace is `[primary, fallback]`); a successful
fallback result is returned, and a failing fallback yields the
`"Both models failed"` error carrying the fallback attempt's details. -/
theorem c2_query_llm_fallback (env : GatewayEnv) (prompt name : String)
    (cfg : ModelCfg) (h : available_models.lookup name = some cfg) :
    fallback_key name ≠ name
    ∧ (∀ t mid, call_model env prompt cfg = .output t mid →
        query_llm env prompt name = (.output t mid, [name]))
    ∧ (∀ e, call_model env prompt cfg = .error e →
        (query_llm env prompt name).2 = [name, fallback_key name]
        ∧ (∀ t mid,
            call_model env prompt (fallback_cfg name) = .output t mid →
              (query_llm env prompt name).1 = .output t mid)
        ∧ (∀ e2,
            call_model env prompt (fallback_cfg name) = .error e2 →
              (query_llm env prompt name).1 = .bothFailed e2)) := by
  refine ⟨fallback_key_ne name, ?_, ?_⟩
  · intro t mid hc
    simp [query_llm, h, hc]
  · intro e he
    have hfb := fallback_lookup name
    refine ⟨?_, ?_, ?_⟩
    · cases hc2 : call_model env prompt (fallback_cfg name) with
      | output t mid => simp [query_llm, h, he, hfb, hc2]
      | error e2 => simp [query_llm, h, he, hfb, hc2]
    · intro t mid hc2
      simp [query_llm, h, he, hfb, hc2]
    · intro e2 hc2
      simp [query_llm, h, he, hfb, hc2]

/-- A gateway environment with neither API key configured. -/
def env_nokeys : GatewayEnv :=
  ⟨none, none, fun _ _ => .exc "boom", fun _ _ => .exc "boom"⟩

/-- C2 witness: with no keys configured and the OpenRouter Phi-3 model as
primary, the primary fails fast, the Hugging Face fallback is invoked and
also fails, and the result is the both-failed error with the fallback's
details. -/
theorem c2_witness :
    (query_llm env_nokeys "p" "Phi-3 Medium (OpenRouter)").1
      = .bothFailed ⟨"Missing Hugging Face API key", none⟩ :=
  ((c2_query_llm_fallback env_nokeys "p" "Phi-3 Medium (OpenRouter)"
      ⟨"microsoft/phi-3-medium-128k-instruct:free", "openrouter"⟩
      (by decide)).2.2
    ⟨"Missing OpenRouter API key", none⟩ (by decide)).2.2
    ⟨"Missing Hugging Face API key", none⟩ (by decide)

/-- A 120-character exception message. -/
def long_err_msg : String := String.mk (List.replicate 120 'e')

/-- A document source on which every fetch raises with a long message. -/
def failing_net : String → HttpGet := fun _ => .exc long_err_msg

/-- C3 counterexample: on an unreachable URL `get_text_from_pdf_url` does not
fail — it returns the sentinel string `"[Error loading PDF] {e}"` as if it
were chapter text; with a 120-character exception message the sentinel
survives the paragraph filter, so the chapter is not excluded from ranking —
instead ranking the sentinel aborts the whole query (with the `util`
NameError), contradicting both halves of the claim. -/
theorem c3_counterexample :
    get_text_from_pdf_url failing_net "https://example.test/x.pdf"
        = "[Error loading PDF] " ++ long_err_msg
    ∧ segment_paragraphs
        (get_text_from_pdf_url failing_net "https://example.test/x.pdf") ≠ []
    ∧ get_top_matches ⟨fun _ _ _ => []⟩ "q"
        [("Chapter 1200 – Appeal",
          get_text_from_pdf_url failing_net "https://example.test/x.pdf")] 1
      = .error (.nameError "util") :=
  ⟨rfl, by decide, by decide⟩

/-- C3 (amended): on any fetch or parse failure `get_text_from_pdf_url`
returns the sentinel string `"[Error loading PDF] {e}"` instead of raising a
FetchError/ParseError; only when that sentinel contributes no surviving
paragraph (its trimmed length is at most 100 characters, the usual case) is
the failing chapter skipped by the ranking loop, leaving the other chapters'
processing unchanged. -/
theorem c3_amended_sentinel (net : String → HttpGet) (url m : String)
    (h : fetch_failure_msg net url = some m) :
    get_text_from_pdf_url net url = "[Error loading PDF] " ++ m
    ∧ (segment_paragraphs ("[Error loading PDF] " ++ m) = [] →
        ∀ o q k ch pre post,
          get_top_matches o q
              (pre ++ (ch, get_text_from_pdf_url net url) :: post) k
            = get_top_matches o q (pre ++ post) k) := by
  have h1 : get_text_from_pdf_url net url = "[Error loading PDF] " ++ m := by
    unfold fetch_failure_msg at h
    unfold get_text_from_pdf_url
    cases hn : net url with
    | exc msg =>
      rw [hn] at h
      simp at h
      rw [h]
    | resp status doc =>
      rw [hn] at h
      by_cases hs : 400 ≤ status ∧ status < 600
      · simp [hs] at h ⊢
        rw [h]
      · simp [hs] at h ⊢
        cases doc with
        | valid pages => simp at h
        | invalid msg =>
          simp at h
          rw [h]
  refine ⟨h1, ?_⟩
  intro hseg o q k ch pre post
  rw [h1]
  unfold get_top_matches
  rw [rankLoop_skip o q k ch _ hseg pre post]

/-- A document source that raises a short message on every fetch. -/
def net_short : String → HttpGet := fun _ => .exc "boom"

/-- C3 witness: with a short exception message the failing chapter's
sentinel is filtered out and ranking over the remaining chapters is exactly
ranking without the failed chapter. -/
theorem c3_witness :
    get_text_from_pdf_url net_short "u" = "[Error loading PDF] boom"
    ∧ get_top_matches ⟨fun _ _ _ => []⟩ "q"
        ([("A", "x")] ++ ("Ch", get_text_from_pdf_url net_short "u") :: [("B", "y")]) 1
      = get_top_matches ⟨fun _ _ _ => []⟩ "q" ([("A", "x")] ++ [("B", "y")]) 1 := by
  have h := c3_amended_sentinel net_short "u" "boom" (by decide)
  exact ⟨h.1, h.2 (by decide) ⟨fun _ _ _ => []⟩ "q" 1 "Ch" [("A", "x")] [("B", "y")]⟩

/-- A 101-character paragraph that passes the filter. -/
def para101 : String := String.mk (List.replicate 101 'z')

/-- C4: evaluating the ranker at the failing input — a query and one chapter
with one 101-character paragraph — raises `NameError` for `util` rather than
returning a ranked match list, so the sorted/top-k contract the claim states
is never exercised. -/
theorem c4_rank_raises_nameError :
    get_top_matches ⟨fun _ _ _ => []⟩ "What is novelty?"
      [("Chapter 2100 – Patentability", para101)] 1
      = .error (.nameError "util") := by
  decide

/-- C5: every passage the segmentation filter produces has (trimmed) length
strictly above 100 characters, so none is below the 100-character minimum:
shorter fragments are discarded as noise. -/
theorem c5_segment_min_length (text : String) :
    ∀ p ∈ segment_paragraphs text, 100 ≤ p.length := by
  intro p hp
  unfold segment_paragraphs at hp
  have h := (List.mem_filter.mp hp).2
  have h2 : 100 < p.length := by simpa using h
  omega

/-- A 101-character text forming a single surviving paragraph. -/
def text101 : String := String.mk (List.replicate 101 'x')

/-- C5 witness: the single passage segmented out of a 101-character text
satisfies the minimum-length bound. -/
theorem c5_witness : 100 ≤ text101.length :=
  c5_segment_min_length text101 text101 (by decide)

/-- C6: whenever the handler's ranking step returns the empty match list,
the handler stops at the no-match message (`st.error` + `st.stop()`) and the
LLM gateway is never called. -/
theorem c6_no_match_no_llm (penv : PipelineEnv) (q mn : String)
    (sel : List String) (cts : List (String × String))
    (hres : resolve_texts penv.net sel = .ok cts)
    (hrank : get_top_matches penv.oracle q cts 1 = .ok []) :
    run_search penv q mn sel = .noMatch
    ∧ llm_called (run_search penv q mn sel) = false := by
  have hrun : run_search penv q mn sel = .noMatch := by
    simp only [run_search, hres, hrank]
  exact ⟨hrun, by rw [hrun]; rfl⟩

/-- A pipeline environment whose document source is down and whose gateway
has no keys. -/
def penv0 : PipelineEnv :=
  { net := fun _ => .exc "refused"
    gw := ⟨none, none, fun _ _ => .exc "boom", fun _ _ => .exc "boom"⟩
    oracle := ⟨fun _ _ _ => []⟩ }

/-- C6 witness: a nonsense query over one chapter whose text yields no
surviving paragraph ends at the no-match stop without an LLM call. -/
theorem c6_witness :
    run_search penv0 "asdkjasdkj nonsense query" "Mistral 7B (Hugging Face)"
        ["Chapter 1200 – Appeal"] = .noMatch :=
  (c6_no_match_no_llm penv0 "asdkjasdkj nonsense query"
    "Mistral 7B (Hugging Face)" ["Chapter 1200 – Appeal"]
    [("Chapter 1200 – Appeal", "[Error loading PDF] refused")]
    (by decide) (by decide)).1

/-- C7: the auto-detector is the first-match scan of the static ordered
keyword table over the lowercased query — it returns `none` exactly when no
keyword occurs as a substring, and when it returns a chapter, that chapter
belongs to the first matching keyword (no earlier table entry matches); as a
pure function of the query and the table it is deterministic. -/
theorem c7_auto_detect_first_match (q : String) :
    (auto_detect_chapter q = none ↔
      ∀ kc ∈ keyword_to_chapter, strContains (pyLower q) kc.1 = false)
    ∧ ∀ ch, auto_detect_chapter q = some ch →
        ∃ pre kw post,
          keyword_to_chapter = pre ++ (kw, ch) :: post
          ∧ strContains (pyLower q) kw = true
          ∧ ∀ kc ∈ pre, strContains (pyLower q) kc.1 = false := by
  constructor
  · exact detectLoop_none_iff (pyLower q) keyword_to_chapter
  · intro ch h
    exact detectLoop_some (pyLower q) keyword_to_chapter ch h

/-- C7 witness: for the query "What is novelty?" the suggestion is the
chapter of the first matching keyword, with no earlier entry matching. -/
theorem c7_witness :
    ∃ pre kw post,
      keyword_to_chapter = pre ++ (kw, "Chapter 2100 – Patentability") :: post
      ∧ strContains (pyLower "What is novelty?") kw = true
      ∧ ∀ kc ∈ pre, strContains (pyLower "What is novelty?") kc.1 = false :=
  (c7_auto_detect_first_match "What is novelty?").2
    "Chapter 2100 – Patentability" (by decide)

/-- C8 counterexample: on the query "What triggers a patent term
adjustment?" the auto-detector does not suggest Chapter 2700 — the keyword
table contains no entry matching the query. -/
theorem c8_counterexample :
    auto_detect_chapter "What triggers a patent term adjustment?"
      ≠ some "Chapter 2700 – Patent Terms, Adjustments, and Extensions" := by
  decide

/-- C8 (amended): on that query the auto-detector returns `none`: the static
keyword table has no "adjustment" keyword (and no keyword at all that occurs
in the query), even though Chapter 2700 does exist in the chapter registry. -/
theorem c8_amended_no_suggestion :
    auto_detect_chapter "What triggers a patent term adjustment?" = none
    ∧ keyword_to_chapter.all (fun kc => !(kc.1 == "adjustment")) = true
    ∧ chapter_to_url.lookup
        "Chapter 2700 – Patent Terms, Adjustments, and Extensions"
      = some "https://www.uspto.gov/web/offices/pac/mpep/mpep-2700.pdf" :=
  ⟨by decide, by decide, by decide⟩

/-- C9: the name `util` is never bound in the module, so as soon as any
chapter contributes a paragraph of trimmed length over 100 characters,
`get_top_matches` raises `NameError` instead of returning; consequently the
successful-ranking branch (a non-empty `ok` result) is unreachable. -/
theorem c9_util_missing_unreachable (o : SearchOracle) (q : String)
    (cts : List (String × String)) (k : Nat)
    (h : cts.any (fun c => !(segment_paragraphs c.2).isEmpty) = true) :
    "util" ∉ module_top_level_names
    ∧ get_top_matches o q cts k = .error (.nameError "util")
    ∧ ∀ ms, get_top_matches o q cts k ≠ .ok ms := by
  have h1 := rankLoop_nameError o q k cts h
  have h2 : get_top_matches o q cts k = .error (.nameError "util") := by
    unfold get_top_matches
    rw [h1]
    rfl
  refine ⟨util_not_bound, h2, ?_⟩
  intro ms hcon
  rw [h2] at hcon
  exact Except.noConfusion hcon

/-- One chapter holding a single 101-character paragraph. -/
def texts_one_long : List (String × String) :=
  [("Chapter 2100 – Patentability", String.mk (List.replicate 101 'y'))]

/-- C9 witness: concrete ranking over a chapter with one long paragraph ends
in the `util` NameError. -/
theorem c9_witness :
    get_top_matches ⟨fun _ _ _ => []⟩ "obviousness" texts_one_long 1
      = .error (.nameError "util") :=
  (c9_util_missing_unreachable ⟨fun _ _ _ => []⟩ "obviousness"
    texts_one_long 1 (by decide)).2.1

/-- C10: the module never binds the name `auto_detect_chapters` (only the
singular `auto_detect_chapter`), so the top-level suggestion step raises
`NameError` on every script execution, and the script aborts before the
search handler can run. -/
theorem c10_suggestion_step_nameError (penv : PipelineEnv) (q mn : String)
    (sel : List String) :
    script_suggestion_step q = .error (.nameError "auto_detect_chapters")
    ∧ script_main penv q mn sel
        = .error (.nameError "auto_detect_chapters") := by
  have h : "auto_detect_chapters" ∉ module_top_level_names := by
    decide
  constructor
  · simp [script_suggestion_step, h]
  · simp [script_main, script_suggestion_step, h]

end MPEdge

